import Mathlib

/-!
Shallow embedding of `agv_server.py`, an AGV guidance-sensor bridge:
it locates a serial endpoint among the enumerated ports, wraps the sensor
behind a Modbus handle, and serves socket.io read requests by emitting a
response event per successful hardware read.

External collaborators (`serial.tools.list_ports`, `minimalmodbus`,
`socketio`) are modelled by their interface contracts: the port enumeration
becomes an explicit input list of (device, description) pairs, the Modbus
register read becomes a register file `Nat → Nat` truncated to 16 bits, and
the fallible library calls of the constructor become explicit outcome flags.
-/

set_option linter.unusedVariables false

deriving instance DecidableEq for Except

namespace AGV

/-- Prefix test on character lists: `startsWithChars hay needle` is true when
`needle` is an initial segment of `hay`.  Building block for Python's
substring operator `in`. -/
def startsWithChars : List Char → List Char → Bool
  | _, [] => true
  | [], _ :: _ => false
  | c :: hay, d :: needle => c == d && startsWithChars hay needle

/-- Substring containment on character lists: `hasSubChars hay needle` is the
semantics of Python's `needle in hay` for strings (true when `needle` occurs
contiguously inside `hay`). -/
def hasSubChars : List Char → List Char → Bool
  | [], needle => startsWithChars [] needle
  | c :: hay, needle => startsWithChars (c :: hay) needle || hasSubChars hay needle

/-- Python's `needle in hay` on strings. -/
def strIn (needle hay : String) : Bool :=
  hasSubChars hay.data needle.data

/-- Marker the port filter looks for in the port description, from line 32 of
`agv_server.py`: the literal is `' CP210'`, with a leading space. -/
def vendorMarker : String := " CP210"

/-- Translation of `find_serial_port`, parameterised by the operating
system's enumeration result `comports` (pairs of the `device` and
`description` fields of a `ListPortInfo`, the `p[0]` and `p[1]` of the
source).  Keeps the devices whose description contains `' CP210'` and sorts
them ascending; Python's `sorted` on strings is embedded as insertion sort
over the lexicographic order. -/
def find_serial_port (comports : List (String × String)) : List String :=
  List.insertionSort (· ≤ ·)
    ((comports.filter (fun p => strIn vendorMarker p.2)).map Prod.fst)

/-- Sensor handle state built by `AGVGuideSensor.__init__`: the bound port,
the Modbus sub-address and the configured baud rate. -/
structure AGVGuideSensor where
  port : String
  modbus_id : Nat
  baudrate : Nat
deriving DecidableEq

/-- Translation of `AGVGuideSensor.__init__`: a `None` `modbus_id` defaults
to 1 and a `None` `baudrate` defaults to 115200; the Modbus instrument is
opened on `port` with that sub-address and its serial baud rate set. -/
def AGVGuideSensor.init (port : String) (modbus_id : Option Nat)
    (baudrate : Option Nat) : AGVGuideSensor :=
  { port := port
    modbus_id :=
      match modbus_id with
      | none => 1
      | some m => m
    baudrate :=
      match baudrate with
      | none => 115200
      | some b => b }

/-- Contract of the external Modbus register read (`minimalmodbus`
`read_register`): a 16-bit value from the register file at `addr`. -/
def read_register (regs : Nat → Nat) (addr : Nat) : Nat :=
  regs addr % 65536

/-- Translation of `AGVGuideSensor.value`: a single `read_register(0x28)`
call against the register file `regs` of the attached instrument. -/
def AGVGuideSensor.value (s : AGVGuideSensor) (regs : Nat → Nat) : Nat :=
  read_register regs 0x28

/-- Failure of the underlying `serial.close()` call. -/
inductive CloseError
  | closeFailed
deriving DecidableEq

/-- Translation of `AGVGuideSensor.__del__`: the underlying
`self.inst.serial.close()` either succeeds or raises (its outcome is
`closeOutcome`); the `try`/`except Exception: pass` swallows any error, so
the destructor itself never raises. -/
def AGVGuideSensor.del (closeOutcome : Except CloseError Unit) :
    Except CloseError Unit :=
  match closeOutcome with
  | .ok () => .ok ()
  | .error _ => .ok ()

/-- Repeated teardown: run `__del__` once per entry of `outcomes` (the
underlying close outcome of each call, in any handle state), propagating the
first error a run raises. -/
def delRuns : List (Except CloseError Unit) → Except CloseError Unit
  | [] => .ok ()
  | o :: rest =>
    match AGVGuideSensor.del o with
    | .ok () => delRuns rest
    | .error e => .error e

/-- Failure modes of the synchronous sensor read, per the spec's `ReadError`
kinds (transport timeout, malformed response, closed handle). -/
inductive ReadError
  | timeout
  | malformedResponse
  | closedHandle
deriving DecidableEq

/-- Response payload: the dict `{"value": v}` built by the handler. -/
structure Payload where
  value : Nat
deriving DecidableEq

/-- One `sio_client.emit(event_name, payload)` call. -/
structure EmitCall where
  event : String
  payload : Payload
deriving DecidableEq

/-- Observable behaviour of one handler run: the emits it performed, the log
records it wrote, and whether it returned normally or let an exception
escape. -/
structure HandlerRun where
  emits : List EmitCall
  logs : List String
  outcome : Except ReadError Unit
deriving DecidableEq

/-- Translation of `AGVServer.sio_handler`: read the sensor (the read's
outcome is `readResult`); on success emit exactly one event named
`socketio_request_event_name + "Response"` carrying `{"value": v}`.  The
handler body has no `try`/`except` and no log statement, so on a failed read
nothing is emitted, nothing is logged by it, and the `ReadError` escapes the
handler. -/
def sio_handler (socketio_request_event_name : String)
    (readResult : Except ReadError Nat) : HandlerRun :=
  match readResult with
  | .error e => ⟨[], [], .error e⟩
  | .ok v =>
      ⟨[⟨socketio_request_event_name ++ "Response", ⟨v⟩⟩], [], .ok ()⟩

/-- Startup failures of the three fallible constructor sub-steps. -/
inductive StartupError
  | sensorOpenFailed
  | connectFailed
  | registerFailed
deriving DecidableEq

/-- Bridge-service state built by `AGVServer.__init__`: the owned sensor
handle and the request event name kept for deriving response names. -/
structure AGVServer where
  sensor : AGVGuideSensor
  socketio_request_event_name : String
deriving DecidableEq

/-- Constructor environment: which of the fallible library calls of
`AGVServer.__init__` raise (`mm.Instrument(...)` inside the sensor open,
`sio_client.connect(...)`, `sio_client.on(...)`). -/
structure InitEnv where
  sensorOpenFails : Bool
  connectFails : Bool
  registerFails : Bool
deriving DecidableEq

/-- Resources the constructor could explicitly release on a failure path. -/
inductive Resource
  | sensorHandle
  | transportConnection
deriving DecidableEq

/-- Observable behaviour of one constructor run: its result and the
resources it explicitly released before letting an error propagate. -/
structure InitRun where
  result : Except StartupError AGVServer
  released : List Resource
deriving DecidableEq

/-- Translation of `AGVServer.__init__`: open the sensor passing only the
serial port (sub-address and baud rate left to their defaults), create the
socket.io client, connect it to the server URL, register `sio_handler` for
the request event and remember the event name.  The body has no
`try`/`finally`: a failing sub-step propagates at once and nothing is
explicitly released. -/
def AGVServer.init (socketio_server_url socketio_request_event_name
    serial_port : String) (env : InitEnv) : InitRun :=
  if env.sensorOpenFails then ⟨.error .sensorOpenFailed, []⟩
  else
    let sensor := AGVGuideSensor.init serial_port none none
    if env.connectFails then ⟨.error .connectFailed, []⟩
    else if env.registerFails then ⟨.error .registerFailed, []⟩
    else ⟨.ok ⟨sensor, socketio_request_event_name⟩, []⟩

/-- Module-level config `socketio_server_url`. -/
def socketio_server_url : String := "http://localhost:8080"

/-- Module-level config `socketio_request_event_name`. -/
def socketio_request_event_name : String := "AGVGuideSensor"

/-- Final state of a `main` run: an exit (with the process exit code) or the
running server blocked in `sio_client.wait()`. -/
inductive MainOutcome
  | exited (code : Int)
  | running (server : AGVServer)
deriving DecidableEq

/-- Observable behaviour of one `main` run: the fatal log records written,
whether `AGVServer(...)` construction was reached, and the final outcome. -/
structure MainRun where
  fatalLogs : List String
  constructionAttempted : Bool
  outcome : MainOutcome
deriving DecidableEq

/-- Translation of `main`: take the first port of `find_serial_port()`; on
`IndexError` (empty list) log `"No serial ports detected. Exiting."` at
fatal level and `exit(-1)` without touching `AGVServer`; otherwise construct
the server and block in `wait()`.  An uncaught constructor exception kills
the process, which CPython reports as exit code 1. -/
def main (comports : List (String × String)) (env : InitEnv) : MainRun :=
  match find_serial_port comports with
  | [] => ⟨["No serial ports detected. Exiting."], false, .exited (-1)⟩
  | port :: _ =>
    let run := AGVServer.init socketio_server_url socketio_request_event_name
      port env
    match run.result with
    | .error _ => ⟨[], true, .exited 1⟩
    | .ok server => ⟨[], true, .running server⟩

theorem startsWithChars_iff (hay needle : List Char) :
    startsWithChars hay needle = true ↔ needle <+: hay := by
  induction hay generalizing needle with
  | nil =>
    cases needle with
    | nil => simp [startsWithChars]
    | cons d t => simp [startsWithChars]
  | cons c hay ih =>
    cases needle with
    | nil => simp [startsWithChars]
    | cons d t =>
      rw [show startsWithChars (c :: hay) (d :: t)
            = (c == d && startsWithChars hay t) from rfl,
        Bool.and_eq_true, beq_iff_eq, ih, List.cons_prefix_cons]
      constructor
      · rintro ⟨rfl, hp⟩
        exact ⟨rfl, hp⟩
      · rintro ⟨rfl, hp⟩
        exact ⟨rfl, hp⟩

theorem hasSubChars_iff (hay needle : List Char) :
    hasSubChars hay needle = true ↔ needle <:+: hay := by
  induction hay with
  | nil => simp [hasSubChars, startsWithChars_iff]
  | cons c hay ih =>
    simp [hasSubChars, startsWithChars_iff, ih, List.infix_cons_iff]

theorem strIn_iff (needle hay : String) :
    strIn needle hay = true ↔ needle.data <:+: hay.data :=
  hasSubChars_iff _ _

/-- Claim C1, as stated, fails on the code: the vendor marker in
`find_serial_port` is `" CP210"` with a leading space, so neither `"CP210x"`
nor `"CP2102"` matches it and the spec's example input yields `[]`, not
`["COM1", "COM2"]`. -/
theorem find_serial_port_spec_example_fails :
    find_serial_port [("COM3", "X"), ("COM1", "CP210x"), ("COM2", "CP2102")]
      ≠ ["COM1", "COM2"] := by
  decide

/-- Claim C1 (amended): `find_serial_port` returns exactly the identifiers
whose descriptor contains the marker `" CP210"` — leading space included —
as a permutation of the filtered enumeration, sorted in ascending lexical
order; `strIn` agrees with contiguous-substring containment, and on the
spec's example input the result is `[]` because no descriptor there carries
the leading-space marker. -/
theorem find_serial_port_filters_marker_and_sorts
    (comports : List (String × String)) :
    (find_serial_port comports).Perm
        ((comports.filter (fun p => strIn vendorMarker p.2)).map Prod.fst)
      ∧ List.Sorted (· ≤ ·) (find_serial_port comports)
      ∧ (∀ d : String, strIn vendorMarker d = true ↔ vendorMarker.data <:+: d.data)
      ∧ find_serial_port [("COM3", "X"), ("COM1", "CP210x"), ("COM2", "CP2102")]
          = [] :=
  ⟨List.perm_insertionSort _ _, List.sorted_insertionSort _ _,
    fun d => strIn_iff _ d, by decide⟩

/-- Claim C2: on a successful read returning `v`, `sio_handler` performs
exactly one emit, named request event name + `"Response"`, carrying the
payload `{"value": v}`; in particular a read of `0x1234` yields one
`AGVGuideSensorResponse` event with value 4660. -/
theorem sio_handler_success_emits_single_response (name : String) (v : Nat) :
    (sio_handler name (.ok v)).emits = [⟨name ++ "Response", ⟨v⟩⟩]
      ∧ (sio_handler name (.ok v)).emits.length = 1
      ∧ (sio_handler name (.ok v)).outcome = .ok ()
      ∧ sio_handler "AGVGuideSensor" (.ok 0x1234)
          = ⟨[⟨"AGVGuideSensorResponse", ⟨4660⟩⟩], [], .ok ()⟩ :=
  ⟨rfl, rfl, rfl, rfl⟩

/-- Claim C4, as stated, fails on the code: `sio_handler` has no
`try`/`except` and no logging call, so on a failed read the failure is not
logged by the handler and the `ReadError` escapes it (containment happens
only in the socket.io dispatch thread, outside this repository). -/
theorem sio_handler_failure_not_logged_and_escapes :
    ¬ ((sio_handler "AGVGuideSensor" (.error .timeout)).emits = []
        ∧ (sio_handler "AGVGuideSensor" (.error .timeout)).logs ≠ []
        ∧ (sio_handler "AGVGuideSensor" (.error .timeout)).outcome = .ok ()) := by
  decide

/-- Claim C4 (amended): on a failed read, `sio_handler` emits no response
event and writes no log record itself; the `ReadError` propagates out of the
handler (per its docstring the handler runs in a separate thread, so the
escape is contained by the transport layer, not by this code); the handler
keeps no state, so a subsequent successful request still produces its normal
response. -/
theorem sio_handler_failure_drops_request (name : String) (e : ReadError)
    (v : Nat) :
    (sio_handler name (.error e)).emits = []
      ∧ (sio_handler name (.error e)).logs = []
      ∧ (sio_handler name (.error e)).outcome = .error e
      ∧ (sio_handler name (.ok v)).emits = [⟨name ++ "Response", ⟨v⟩⟩] :=
  ⟨rfl, rfl, rfl, rfl⟩

/-- Claim C5: when the locator returns no candidates, `main` writes the
fatal log record, never attempts `AGVServer` construction, and exits with
the non-zero code -1. -/
theorem main_exits_nonzero_on_empty_port_list
    (comports : List (String × String)) (env : InitEnv)
    (h : find_serial_port comports = []) :
    main comports env
        = ⟨["No serial ports detected. Exiting."], false, .exited (-1)⟩
      ∧ (-1 : Int) ≠ 0 := by
  constructor
  · unfold main
    rw [h]
  · decide

/-- Witness for claim C5 at the concrete empty enumeration. -/
theorem main_exits_nonzero_on_empty_port_list_witness :
    find_serial_port [] = []
      ∧ (main [] ⟨false, false, false⟩
            = ⟨["No serial ports detected. Exiting."], false, .exited (-1)⟩
          ∧ (-1 : Int) ≠ 0) :=
  ⟨rfl, main_exits_nonzero_on_empty_port_list [] ⟨false, false, false⟩ rfl⟩

/-- Claim C6, as stated, fails on the code: `AGVServer.__init__` has no
cleanup path — when `sio_client.connect` raises after the sensor handle was
already opened, the error propagates while no resource has been explicitly
released. -/
theorem agvserver_init_releases_nothing_on_connect_failure :
    (AGVServer.init "http://localhost:8080" "AGVGuideSensor" "COM1"
        ⟨false, true, false⟩).result = .error .connectFailed
      ∧ Resource.sensorHandle ∉
          (AGVServer.init "http://localhost:8080" "AGVGuideSensor" "COM1"
            ⟨false, true, false⟩).released := by
  decide

/-- Claim C6 (amended): if any constructor sub-step fails, construction
fails with the corresponding startup error and the service never becomes
ready partially initialized — a server value is produced exactly when all
three sub-steps succeed; however the constructor performs no explicit
release of partially-acquired resources: sensor-handle cleanup is left to
interpreter finalization (`__del__`) and the transport connection is not
explicitly closed. -/
theorem agvserver_init_no_partial_ready (u r p : String) (env : InitEnv) :
    ((∃ srv, (AGVServer.init u r p env).result = .ok srv)
        ↔ env.sensorOpenFails = false ∧ env.connectFails = false
            ∧ env.registerFails = false)
      ∧ (AGVServer.init u r p env).released = [] := by
  obtain ⟨s, c, reg⟩ := env
  cases s <;> cases c <;> cases reg <;> simp [AGVServer.init]

/-- Claim C7: tearing a sensor handle down any number of times, whatever
each underlying `serial.close()` call does, never raises: the
`try`/`except Exception: pass` in `__del__` swallows every close error. -/
theorem del_idempotent_never_raises
    (outcomes : List (Except CloseError Unit)) :
    delRuns outcomes = .ok () := by
  induction outcomes with
  | nil => rfl
  | cons o rest ih =>
    cases o with
    | ok u => cases u; simpa [delRuns, AGVGuideSensor.del] using ih
    | error e => simpa [delRuns, AGVGuideSensor.del] using ih

/-- Claim C8: a sensor opened without explicit arguments gets Modbus
sub-address 1 and baud rate 115200, and its `value` operation is the single
register read at the fixed address 0x28, returning a 16-bit unsigned
result. -/
theorem sensor_defaults_and_fixed_register (port : String)
    (regs : Nat → Nat) :
    (AGVGuideSensor.init port none none).modbus_id = 1
      ∧ (AGVGuideSensor.init port none none).baudrate = 115200
      ∧ (AGVGuideSensor.init port none none).value regs
          = read_register regs 0x28
      ∧ (AGVGuideSensor.init port none none).value regs = regs 0x28 % 65536
      ∧ (AGVGuideSensor.init port none none).value regs < 65536 := by
  refine ⟨rfl, rfl, rfl, rfl, ?_⟩
  exact Nat.mod_lt _ (by norm_num)

/-- Claim C9: the locator is deterministic — two enumeration results holding
the same pairs (in any order) produce the same output list, since filtering
preserves the permutation and sorting by the antisymmetric lexical order on
strings canonicalises it. -/
theorem find_serial_port_deterministic (l₁ l₂ : List (String × String))
    (h : l₁.Perm l₂) :
    find_serial_port l₁ = find_serial_port l₂ := by
  unfold find_serial_port
  refine List.eq_of_perm_of_sorted ?_ (List.sorted_insertionSort _ _)
    (List.sorted_insertionSort _ _)
  exact ((List.perm_insertionSort _ _).trans
    ((h.filter _).map Prod.fst)).trans (List.perm_insertionSort _ _).symm

/-- Witness for claim C9 on a concrete two-element permutation. -/
theorem find_serial_port_deterministic_witness :
    ([("COM2", " CP2102"), ("COM1", "X")] : List (String × String)).Perm
        [("COM1", "X"), ("COM2", " CP2102")]
      ∧ find_serial_port [("COM2", " CP2102"), ("COM1", "X")]
          = find_serial_port [("COM1", "X"), ("COM2", " CP2102")] :=
  ⟨by decide, find_serial_port_deterministic _ _ (by decide)⟩

/-- Claim C10: whenever construction succeeds, the server's sensor was
opened with only the serial port — the source calls
`AGVGuideSensor(serial_port)` — so it carries the default sub-address 1 and
baud rate 115200, and neither is configurable through
`AGVServer.__init__`. -/
theorem agvserver_sensor_uses_defaults (u r p : String) (env : InitEnv)
    (srv : AGVServer) (h : (AGVServer.init u r p env).result = .ok srv) :
    srv.sensor = AGVGuideSensor.init p none none
      ∧ srv.sensor.modbus_id = 1 ∧ srv.sensor.baudrate = 115200 := by
  obtain ⟨s, c, reg⟩ := env
  cases s <;> cases c <;> cases reg <;>
    simp_all [AGVServer.init, AGVGuideSensor.init]
  subst h
  exact ⟨rfl, rfl, rfl⟩

/-- Witness for claim C10 at a concrete successful construction. -/
theorem agvserver_sensor_uses_defaults_witness :
    (⟨AGVGuideSensor.init "COM1" none none, "AGVGuideSensor"⟩ : AGVServer).sensor
        = AGVGuideSensor.init "COM1" none none
      ∧ (⟨AGVGuideSensor.init "COM1" none none,
            "AGVGuideSensor"⟩ : AGVServer).sensor.modbus_id = 1
      ∧ (⟨AGVGuideSensor.init "COM1" none none,
            "AGVGuideSensor"⟩ : AGVServer).sensor.baudrate = 115200 :=
  agvserver_sensor_uses_defaults "http://localhost:8080" "AGVGuideSensor"
    "COM1" ⟨false, false, false⟩
    ⟨AGVGuideSensor.init "COM1" none none, "AGVGuideSensor"⟩ rfl

end AGV
